import Mathlib

/-!
Shallow embedding of the relation-stub models
(`core/dbt/adapters/relation/models/_relation_stub.py`), the materialization
strategy selector (`core/dbt/adapters/materialization/factory.py`), and the
freshness/truthiness contracts (`core/dbt/contracts/graph/unparsed.py`).

Python dicts with a fixed key vocabulary are embedded as structures of
`Option` fields (a missing key is `none`); a `KeyError`-style failure of a
`from_dict` constructor is the `ConstructionError` of the design taxonomy.
Methods that could mutate `self` are embedded state-passing, returning the
updated `self` alongside the result.
-/

namespace Dbt

/-- Modelled from the spec: `RenderPolicy` — immutable rule set controlling how
identifiers are quoted/cased (`_policy.py` is outside the shown sources; only
its attribute shape from §3 of the spec is needed here). -/
structure RenderPolicy where
  quoteCharacter : String
  includeDatabase : Bool
  includeSchema : Bool
  deriving DecidableEq, Repr

/-- The enumerated relation types of the data model (spec §3). -/
inductive RelationType
  | table
  | view
  | materializedView
  | cte
  | external
  | ephemeral
  deriving DecidableEq, Repr

/-- Tag standing for the Python class object stored in the injected
parser-strategy fields (`DatabaseParser` / `SchemaParser`). -/
inductive ParserTag
  | databaseRelation
  | databaseRelationStub
  | schemaRelation
  | schemaRelationStub
  deriving DecidableEq, Repr

/-- Failure of a `from_dict`-style constructor on a malformed/incomplete
configuration dict (spec §7 taxonomy); realized in the source as the exception
escaping the `config_dict[key]` lookups. -/
inductive ConstructionError
  | missingKey (key : String)
  deriving DecidableEq, Repr

/-- `config_dict[key]`: yields the value when the key is present, fails the
construction otherwise. -/
def requireKey (v : Option α) (key : String) : Except ConstructionError α :=
  match v with
  | some a => Except.ok a
  | none => Except.error (ConstructionError.missingKey key)

/-- Modelled from the spec: a declarative node description (spec §6); the stub
parsers never inspect it, so only an opaque payload is carried. -/
structure ModelNode where
  name : String
  deriving DecidableEq, Repr

/-- Introspection result rows from warehouse catalog queries (spec §6); the
stub parsers never inspect them. -/
structure DescribeRelationResults where
  rows : List (List (String × String))
  deriving DecidableEq, Repr

/-- The attribute mapping produced by the parse capabilities. -/
abbrev AttributeDict := List (String × String)

/-- Modelled from the spec: `DatabaseRelation` (`_database.py` is outside the
shown sources) — attributes `name` and `render` (spec §3). -/
structure DatabaseRelation where
  name : String
  render : RenderPolicy
  deriving DecidableEq, Repr

/-- Configuration dict for the database level: keys `name`, `render`. -/
structure DatabaseConfigDict where
  name : Option String
  render : Option RenderPolicy
  deriving DecidableEq, Repr

/-- Modelled from the spec: `DatabaseRelation.from_dict` — fails with a
`ConstructionError` if a required key (`name`, `render`) is absent (spec §4.1),
otherwise builds the instance from those two entries. -/
def DatabaseRelation.from_dict (config_dict : DatabaseConfigDict) :
    Except ConstructionError DatabaseRelation :=
  match requireKey config_dict.name "name" with
  | Except.error e => Except.error e
  | Except.ok name =>
    match requireKey config_dict.render "render" with
    | Except.error e => Except.error e
    | Except.ok render => Except.ok { name := name, render := render }

/-- `DatabaseRelationStub`: database level of the stub variant; a frozen
dataclass subclass of `DatabaseRelation` adding no fields. -/
structure DatabaseRelationStub where
  name : String
  render : RenderPolicy
  deriving DecidableEq, Repr

def DatabaseRelationStub.from_dict (config_dict : DatabaseConfigDict) :
    Except ConstructionError DatabaseRelationStub :=
  match requireKey config_dict.name "name" with
  | Except.error e => Except.error e
  | Except.ok name =>
    match requireKey config_dict.render "render" with
    | Except.error e => Except.error e
    | Except.ok render => Except.ok { name := name, render := render }

def DatabaseRelationStub.parse_model_node (_model_node : ModelNode) : AttributeDict := []

def DatabaseRelationStub.parse_describe_relation_results
    (_describe_relation_results : DescribeRelationResults) : AttributeDict := []

/-- `SchemaRelationStub`: schema level of the stub variant. Its runtime
attributes are those assigned by `SchemaRelationStub.from_dict`: `name`, a
`database` built by `DatabaseRelation.from_dict`, `render`, and the injected
`DatabaseParser` strategy set to the stub class. -/
structure SchemaRelationStub where
  name : String
  database : DatabaseRelation
  render : RenderPolicy
  DatabaseParser : ParserTag
  deriving DecidableEq, Repr

/-- Configuration dict for the schema level: keys `name`, `database` (a nested
dict), `render`. -/
structure SchemaConfigDict where
  name : Option String
  database : Option DatabaseConfigDict
  render : Option RenderPolicy
  deriving DecidableEq, Repr

def SchemaRelationStub.from_dict (config_dict : SchemaConfigDict) :
    Except ConstructionError SchemaRelationStub :=
  match requireKey config_dict.name "name" with
  | Except.error e => Except.error e
  | Except.ok name =>
    match requireKey config_dict.database "database" with
    | Except.error e => Except.error e
    | Except.ok databaseDict =>
      match DatabaseRelation.from_dict databaseDict with
      | Except.error e => Except.error e
      | Except.ok database =>
        match requireKey config_dict.render "render" with
        | Except.error e => Except.error e
        | Except.ok render =>
          Except.ok { name := name, database := database, render := render,
                      DatabaseParser := ParserTag.databaseRelationStub }

def SchemaRelationStub.parse_model_node (_model_node : ModelNode) : AttributeDict := []

def SchemaRelationStub.parse_describe_relation_results
    (_describe_relation_results : DescribeRelationResults) : AttributeDict := []

/-- `RelationStub`: relation level of the stub variant; carries the identity
triple plus `type` and the extra `can_be_renamed` flag. -/
structure RelationStub where
  name : String
  schema : SchemaRelationStub
  render : RenderPolicy
  type : RelationType
  SchemaParser : ParserTag
  can_be_renamed : Bool
  deriving DecidableEq, Repr

/-- Configuration dict for the relation level: keys `name`, `schema` (a nested
dict), `render`, `type`, `can_be_renamed`. -/
structure RelationConfigDict where
  name : Option String
  schema : Option SchemaConfigDict
  render : Option RenderPolicy
  type : Option RelationType
  can_be_renamed : Option Bool
  deriving DecidableEq, Repr

def RelationStub.from_dict (config_dict : RelationConfigDict) :
    Except ConstructionError RelationStub :=
  match requireKey config_dict.name "name" with
  | Except.error e => Except.error e
  | Except.ok name =>
    match requireKey config_dict.schema "schema" with
    | Except.error e => Except.error e
    | Except.ok schemaDict =>
      match SchemaRelationStub.from_dict schemaDict with
      | Except.error e => Except.error e
      | Except.ok schema =>
        match requireKey config_dict.render "render" with
        | Except.error e => Except.error e
        | Except.ok render =>
          match requireKey config_dict.type "type" with
          | Except.error e => Except.error e
          | Except.ok type =>
            match requireKey config_dict.can_be_renamed "can_be_renamed" with
            | Except.error e => Except.error e
            | Except.ok can_be_renamed =>
              Except.ok { name := name, schema := schema, render := render,
                          type := type,
                          SchemaParser := ParserTag.schemaRelationStub,
                          can_be_renamed := can_be_renamed }

def RelationStub.parse_model_node (_model_node : ModelNode) : AttributeDict := []

def RelationStub.parse_describe_relation_results
    (_describe_relation_results : DescribeRelationResults) : AttributeDict := []

/-- Raised by Python's generated `__setattr__` on a frozen dataclass. -/
inductive FrozenInstanceError
  | mk
  deriving DecidableEq, Repr

/-- Python dataclass attribute-assignment semantics: on a frozen dataclass the
update is refused with `FrozenInstanceError`; otherwise it is applied. -/
def dataclassSetattr (frozen : Bool) (update : α → α) (x : α) :
    Except FrozenInstanceError α :=
  match frozen with
  | true => Except.error FrozenInstanceError.mk
  | false => Except.ok (update x)

/-- `@dataclass(frozen=True)` on `DatabaseRelationStub`. -/
def DatabaseRelationStub.frozenFlag : Bool := true

/-- `@dataclass(frozen=True)` on `SchemaRelationStub`. -/
def SchemaRelationStub.frozenFlag : Bool := true

/-- `@dataclass(frozen=True)` on `RelationStub`. -/
def RelationStub.frozenFlag : Bool := true

/-- Modelled from the spec: `RuntimeConfig` — an opaque configuration bag
forwarded unmodified to strategy constructors (spec §6). -/
structure RuntimeConfig where
  token : Nat
  deriving DecidableEq, Repr

/-- Modelled from the spec: `RelationFactory` — constructed once per run
context and passed by reference; its internals are outside the shown sources
and are never inspected by the selector. -/
structure RelationFactory where
  token : Nat
  deriving DecidableEq, Repr

/-- `models.MaterializationType` (spec §3: currently `MaterializedView`;
extensible to `Table`, `View`, `Incremental`, `Snapshot`). -/
inductive MaterializationType
  | materializedView
  | table
  | view
  | incremental
  | snapshot
  deriving DecidableEq, Repr

/-- Modelled from the spec: a `Materialization` instance — each variant owns a
reference to a `RelationFactory` and optionally a `RelationStub` describing
pre-existing state (spec §3); embedded as a record of what the strategy
received. -/
structure Materialization where
  materialization_type : MaterializationType
  runtime_config : RuntimeConfig
  relation_factory : RelationFactory
  existing_relation_stub : Option RelationStub

/-- A strategy class of the `materialization_map`: what the selector needs of
it is its `from_runtime_config` classmethod. -/
structure MaterializationStrategy where
  from_runtime_config : RuntimeConfig → RelationFactory → Option RelationStub → Materialization

/-- Modelled from the spec: `models.MaterializedViewMaterialization`, the one
strategy registered by default; its construction is outside the shown sources,
so it is embedded as recording its forwarded inputs. -/
def MaterializedViewMaterialization : MaterializationStrategy :=
  { from_runtime_config := fun runtime_config relation_factory existing_relation_stub =>
      { materialization_type := MaterializationType.materializedView
        runtime_config := runtime_config
        relation_factory := relation_factory
        existing_relation_stub := existing_relation_stub } }

/-- The state of a `MaterializationFactory` object: the two attributes set by
`__init__`. The map is an association list keyed by `MaterializationType`. -/
structure MaterializationFactory where
  relation_factory : Option RelationFactory
  materialization_map : List (MaterializationType × MaterializationStrategy)

/-- The map `__init__` installs when `materialization_map` is falsy. -/
def defaultMaterializationMap : List (MaterializationType × MaterializationStrategy) :=
  [(MaterializationType.materializedView, MaterializedViewMaterialization)]

/-- `MaterializationFactory.__init__`: both arguments default to `None`; the
map argument is replaced by the default when it is `None` or empty (Python
`materialization_map or {...}` treats the empty dict as falsy too). -/
def MaterializationFactory.init (relation_factory : Option RelationFactory)
    (materialization_map : Option (List (MaterializationType × MaterializationStrategy))) :
    MaterializationFactory :=
  { relation_factory := relation_factory
    materialization_map :=
      match materialization_map with
      | none => defaultMaterializationMap
      | some m => if m.isEmpty then defaultMaterializationMap else m }

/-- `MaterializationFactory._get_parser`: `self.materialization_map.get(...)`. -/
def MaterializationFactory.getParser (self : MaterializationFactory)
    (materialization_type : MaterializationType) : Option MaterializationStrategy :=
  (self.materialization_map.find? (fun p => p.1 == materialization_type)).map Prod.snd

/-- The exception a failing `assert` statement raises. -/
inductive PyError
  | assertionError
  deriving DecidableEq, Repr

/-- `MaterializationFactory.make_from_runtime_config`, state-passing: the
second component is the (unchanged) `self` after the call. When the looked-up
parser is truthy, `assert self.relation_factory is not None` runs before the
delegation to `parser.from_runtime_config`. -/
def MaterializationFactory.make_from_runtime_config (self : MaterializationFactory)
    (runtime_config : RuntimeConfig) (materialization_type : MaterializationType)
    (existing_relation_stub : Option RelationStub) :
    Except PyError (Option Materialization) × MaterializationFactory :=
  match self.getParser materialization_type with
  | some parserStrat =>
    match self.relation_factory with
    | none => (Except.error PyError.assertionError, self)
    | some rf =>
      (Except.ok (some (parserStrat.from_runtime_config runtime_config rf
        existing_relation_stub)), self)
  | none => (Except.ok none, self)

/-- `TimePeriod` enumeration from `unparsed.py`. -/
inductive TimePeriod
  | minute
  | hour
  | day
  deriving DecidableEq, Repr

/-- `timedelta(**{self.period.plural(): self.count}).total_seconds()` for the
three periods (`minutes`/`hours`/`days` keyword arguments). -/
def TimePeriod.totalSeconds (p : TimePeriod) (count : Int) : ℚ :=
  match p with
  | TimePeriod.minute => (count : ℚ) * 60
  | TimePeriod.hour => (count : ℚ) * 3600
  | TimePeriod.day => (count : ℚ) * 86400

/-- `Time` from `unparsed.py`: both fields default to `None`. -/
structure Time where
  count : Option Int := none
  period : Option TimePeriod := none
  deriving DecidableEq, Repr

/-- `Time.exceeded`: `False` when `period` or `count` is `None`, else compares
the actual age against the configured window in seconds. -/
def Time.exceeded (self : Time) (actual_age : ℚ) : Bool :=
  match self.period, self.count with
  | none, _ => false
  | _, none => false
  | some p, some c => decide (actual_age > p.totalSeconds c)

/-- `Time.__bool__`. -/
def Time.pyBool (self : Time) : Bool :=
  self.count.isSome && self.period.isSome

/-- Python truthiness of an `Optional[Time]`: `None` is falsy, a `Time` uses
its `__bool__`. -/
def optTimePyBool : Option Time → Bool
  | none => false
  | some t => t.pyBool

/-- `FreshnessThreshold` from `unparsed.py`: `warn_after`/`error_after`
default to a fresh, unconfigured `Time`. -/
structure FreshnessThreshold where
  warn_after : Option Time := some {}
  error_after : Option Time := some {}
  filter : Option String := none
  deriving DecidableEq, Repr

/-- `FreshnessThreshold.__bool__`: `bool(self.warn_after) or bool(self.error_after)`. -/
def FreshnessThreshold.pyBool (self : FreshnessThreshold) : Bool :=
  optTimePyBool self.warn_after || optTimePyBool self.error_after

/-- Modelled from the spec: `FreshnessStatus` result enumeration (the results
contract module is outside the shown sources; `status` returns one of
`Error`/`Warn`/`Pass`). -/
inductive FreshnessStatus
  | pass
  | warn
  | error
  deriving DecidableEq, Repr

/-- `self.x and self.x.exceeded(age)` for an `Optional[Time]` attribute. -/
def optTimeExceeds (o : Option Time) (age : ℚ) : Bool :=
  match o with
  | none => false
  | some t => t.pyBool && t.exceeded age

/-- `FreshnessThreshold.status`. -/
def FreshnessThreshold.status (self : FreshnessThreshold) (age : ℚ) : FreshnessStatus :=
  if optTimeExceeds self.error_after age then FreshnessStatus.error
  else if optTimeExceeds self.warn_after age then FreshnessStatus.warn
  else FreshnessStatus.pass

/-- `ExternalPartition` from `unparsed.py` (`meta`/extras embedded as string
association lists; the `__post_init__` name/data-type validation is not needed
by the claims about `ExternalTable.__bool__`). -/
structure ExternalPartition where
  name : String := ""
  description : String := ""
  data_type : String := ""
  meta : List (String × String) := []
  deriving DecidableEq, Repr

/-- `ExternalTable` from `unparsed.py` (the `AdditionalPropertiesAllowed`
extras bag is elided; `partitions` is a list of names or of partitions). -/
structure ExternalTable where
  location : Option String := none
  file_format : Option String := none
  row_format : Option String := none
  tbl_properties : Option String := none
  partitions : Option (List String ⊕ List ExternalPartition) := none
  deriving DecidableEq, Repr

/-- `ExternalTable.__bool__`. -/
def ExternalTable.pyBool (self : ExternalTable) : Bool :=
  self.location.isSome

/-- A concrete render policy for exercising the definitions on closed inputs. -/
def samplePolicy : RenderPolicy :=
  { quoteCharacter := "q", includeDatabase := true, includeSchema := true }

/-- A concrete stub for exercising the selector on closed inputs. -/
def sampleRelationStub : RelationStub :=
  { name := "mv1"
    schema := { name := "public"
                database := { name := "db", render := samplePolicy }
                render := samplePolicy
                DatabaseParser := ParserTag.databaseRelationStub }
    render := samplePolicy
    type := RelationType.materializedView
    SchemaParser := ParserTag.schemaRelationStub
    can_be_renamed := true }

/-! ## Theorems -/

/-- C1: for every `MaterializationFactory` and every materialization type
absent from its materialization map, `make_from_runtime_config` returns `None`
without raising; in particular, with the default map (only `MaterializedView`
registered), any other type — such as `Table` — yields `None`. -/
theorem C1_absent_type_returns_none
    (f : MaterializationFactory) (rc : RuntimeConfig) (mt : MaterializationType)
    (ex : Option RelationStub)
    (h : ∀ p ∈ f.materialization_map, p.1 ≠ mt) :
    (f.make_from_runtime_config rc mt ex).1 = Except.ok none ∧
    ∀ (rfOpt : Option RelationFactory) (rc2 : RuntimeConfig)
      (ex2 : Option RelationStub) (mt2 : MaterializationType),
      mt2 ≠ MaterializationType.materializedView →
      ((MaterializationFactory.init rfOpt none).make_from_runtime_config rc2 mt2 ex2).1
        = Except.ok none := by
  constructor
  · have hfind : f.materialization_map.find? (fun p => p.1 == mt) = none := by
      rw [List.find?_eq_none]
      intro p hp
      simpa using h p hp
    simp [MaterializationFactory.make_from_runtime_config,
      MaterializationFactory.getParser, hfind]
  · intro rfOpt rc2 ex2 mt2 hne
    have hbeq : (MaterializationType.materializedView == mt2) = false := by
      simp only [beq_eq_false_iff_ne]
      exact fun hh => hne hh.symm
    simp [MaterializationFactory.make_from_runtime_config,
      MaterializationFactory.getParser, MaterializationFactory.init,
      defaultMaterializationMap, List.find?, hbeq]

theorem C1_witness :
    ((MaterializationFactory.init none none).make_from_runtime_config ⟨0⟩
        MaterializationType.table none).1 = Except.ok none :=
  (C1_absent_type_returns_none (MaterializationFactory.init none none) ⟨0⟩
      MaterializationType.table none
      (by
        intro p hp
        have hp' : p = (MaterializationType.materializedView,
            MaterializedViewMaterialization) := by
          simpa [MaterializationFactory.init, defaultMaterializationMap] using hp
        rw [hp']
        simp)).1

/-- C5: when the factory's relation factory is set and the materialization
type is mapped, `make_from_runtime_config` returns exactly the result of the
mapped strategy's `from_runtime_config` applied to the runtime config, the
factory's relation factory, and the given existing-relation stub, forwarded
unmodified. -/
theorem C5_present_type_delegates
    (f : MaterializationFactory) (rf : RelationFactory)
    (strat : MaterializationStrategy) (rc : RuntimeConfig)
    (mt : MaterializationType) (ex : Option RelationStub)
    (hrf : f.relation_factory = some rf)
    (hmt : f.getParser mt = some strat) :
    (f.make_from_runtime_config rc mt ex).1
      = Except.ok (some (strat.from_runtime_config rc rf ex)) := by
  simp [MaterializationFactory.make_from_runtime_config, hmt, hrf]

theorem C5_witness :
    ((MaterializationFactory.init (some ⟨0⟩) none).make_from_runtime_config ⟨1⟩
        MaterializationType.materializedView (some sampleRelationStub)).1
      = Except.ok (some (MaterializedViewMaterialization.from_runtime_config ⟨1⟩ ⟨0⟩
          (some sampleRelationStub))) :=
  C5_present_type_delegates (MaterializationFactory.init (some ⟨0⟩) none) ⟨0⟩
    MaterializedViewMaterialization ⟨1⟩ MaterializationType.materializedView
    (some sampleRelationStub) rfl rfl

/-- C8: `make_from_runtime_config` has no side effect on the factory's own
state — the `relation_factory` and `materialization_map` attributes are
identical before and after the call, for every input. -/
theorem C8_no_state_change (f : MaterializationFactory) (rc : RuntimeConfig)
    (mt : MaterializationType) (ex : Option RelationStub) :
    (f.make_from_runtime_config rc mt ex).2.relation_factory = f.relation_factory ∧
    (f.make_from_runtime_config rc mt ex).2.materialization_map
      = f.materialization_map := by
  cases hp : f.getParser mt with
  | none => simp [MaterializationFactory.make_from_runtime_config, hp]
  | some strat =>
    cases hrf : f.relation_factory with
    | none => simp [MaterializationFactory.make_from_runtime_config, hp, hrf]
    | some rf => simp [MaterializationFactory.make_from_runtime_config, hp, hrf]

/-- C9: with `relation_factory` left at its default `None` and a mapped
materialization type, `make_from_runtime_config` fails the internal
`assert self.relation_factory is not None`; with a non-`None` relation
factory, that assertion-failure branch is unreachable. -/
theorem C9_assert_guards_relation_factory :
    (∀ (f : MaterializationFactory) (rc : RuntimeConfig)
        (mt : MaterializationType) (ex : Option RelationStub)
        (strat : MaterializationStrategy),
        f.relation_factory = none → f.getParser mt = some strat →
        (f.make_from_runtime_config rc mt ex).1
          = Except.error PyError.assertionError) ∧
    (∀ (f : MaterializationFactory) (rf : RelationFactory) (rc : RuntimeConfig)
        (mt : MaterializationType) (ex : Option RelationStub),
        f.relation_factory = some rf →
        (f.make_from_runtime_config rc mt ex).1
          ≠ Except.error PyError.assertionError) := by
  constructor
  · intro f rc mt ex strat hrf hmt
    simp [MaterializationFactory.make_from_runtime_config, hmt, hrf]
  · intro f rf rc mt ex hrf
    cases hmt : f.getParser mt with
    | none => simp [MaterializationFactory.make_from_runtime_config, hmt]
    | some strat => simp [MaterializationFactory.make_from_runtime_config, hmt, hrf]

theorem C9_witness :
    ((MaterializationFactory.init none none).make_from_runtime_config ⟨0⟩
        MaterializationType.materializedView none).1
      = Except.error PyError.assertionError ∧
    ((MaterializationFactory.init (some ⟨0⟩) none).make_from_runtime_config ⟨0⟩
        MaterializationType.materializedView none).1
      ≠ Except.error PyError.assertionError :=
  ⟨C9_assert_guards_relation_factory.1 (MaterializationFactory.init none none) ⟨0⟩
      MaterializationType.materializedView none MaterializedViewMaterialization rfl rfl,
   C9_assert_guards_relation_factory.2 (MaterializationFactory.init (some ⟨0⟩) none)
      ⟨0⟩ ⟨0⟩ MaterializationType.materializedView none rfl⟩

/-- C2: each stub level's `from_dict` fails with a `ConstructionError` when a
required key — `name`, the nested `schema`/`database` dict, or `render` — is
absent from its configuration dict. -/
theorem C2_missing_key_fails :
    (∀ d : DatabaseConfigDict, (d.name = none ∨ d.render = none) →
        ∃ e, DatabaseRelationStub.from_dict d = Except.error e) ∧
    (∀ d : SchemaConfigDict, (d.name = none ∨ d.database = none ∨ d.render = none) →
        ∃ e, SchemaRelationStub.from_dict d = Except.error e) ∧
    (∀ d : RelationConfigDict, (d.name = none ∨ d.schema = none ∨ d.render = none) →
        ∃ e, RelationStub.from_dict d = Except.error e) := by
  refine ⟨?_, ?_, ?_⟩
  · rintro ⟨dn, dr⟩ (h | h)
    · cases h
      exact ⟨ConstructionError.missingKey "name", rfl⟩
    · cases h
      cases dn with
      | none => exact ⟨ConstructionError.missingKey "name", rfl⟩
      | some n => exact ⟨ConstructionError.missingKey "render", rfl⟩
  · rintro ⟨sn, sdb, sr⟩ (h | h | h)
    · cases h
      exact ⟨ConstructionError.missingKey "name", rfl⟩
    · cases h
      cases sn with
      | none => exact ⟨ConstructionError.missingKey "name", rfl⟩
      | some n => exact ⟨ConstructionError.missingKey "database", rfl⟩
    · cases h
      cases sn with
      | none => exact ⟨ConstructionError.missingKey "name", rfl⟩
      | some n =>
        cases sdb with
        | none => exact ⟨ConstructionError.missingKey "database", rfl⟩
        | some dd =>
          cases hdb : DatabaseRelation.from_dict dd with
          | error e =>
            exact ⟨e, by simp [SchemaRelationStub.from_dict, requireKey, hdb]⟩
          | ok db =>
            exact ⟨ConstructionError.missingKey "render",
              by simp [SchemaRelationStub.from_dict, requireKey, hdb]⟩
  · rintro ⟨rn, rs, rr, rt, rb⟩ (h | h | h)
    · cases h
      exact ⟨ConstructionError.missingKey "name", rfl⟩
    · cases h
      cases rn with
      | none => exact ⟨ConstructionError.missingKey "name", rfl⟩
      | some n => exact ⟨ConstructionError.missingKey "schema", rfl⟩
    · cases h
      cases rn with
      | none => exact ⟨ConstructionError.missingKey "name", rfl⟩
      | some n =>
        cases rs with
        | none => exact ⟨ConstructionError.missingKey "schema", rfl⟩
        | some sd =>
          cases hs : SchemaRelationStub.from_dict sd with
          | error e =>
            exact ⟨e, by simp [RelationStub.from_dict, requireKey, hs]⟩
          | ok s =>
            exact ⟨ConstructionError.missingKey "render",
              by simp [RelationStub.from_dict, requireKey, hs]⟩

theorem C2_witness :
    (∃ e, DatabaseRelationStub.from_dict ⟨none, some samplePolicy⟩
        = Except.error e) ∧
    (∃ e, SchemaRelationStub.from_dict ⟨some "public", none, some samplePolicy⟩
        = Except.error e) ∧
    (∃ e, RelationStub.from_dict
        ⟨some "mv1", none, some samplePolicy, some RelationType.table, some true⟩
        = Except.error e) :=
  ⟨C2_missing_key_fails.1 ⟨none, some samplePolicy⟩ (Or.inl rfl),
   C2_missing_key_fails.2.1 ⟨some "public", none, some samplePolicy⟩
      (Or.inr (Or.inl rfl)),
   C2_missing_key_fails.2.2
      ⟨some "mv1", none, some samplePolicy, some RelationType.table, some true⟩
      (Or.inr (Or.inl rfl))⟩

/-- C3: every parsing operation of every stub level returns the empty
attribute mapping, whatever node description or introspection rows it is
given. -/
theorem C3_stub_parsing_returns_empty :
    (∀ m : ModelNode,
        DatabaseRelationStub.parse_model_node m = [] ∧
        SchemaRelationStub.parse_model_node m = [] ∧
        RelationStub.parse_model_node m = []) ∧
    (∀ r : DescribeRelationResults,
        DatabaseRelationStub.parse_describe_relation_results r = [] ∧
        SchemaRelationStub.parse_describe_relation_results r = [] ∧
        RelationStub.parse_describe_relation_results r = []) :=
  ⟨fun _ => ⟨rfl, rfl, rfl⟩, fun _ => ⟨rfl, rfl, rfl⟩⟩

/-- C4: on a configuration dict of the documented shape, with every key
present, `RelationStub.from_dict` succeeds; the resulting stub's `name`,
`render`, `type`, and `can_be_renamed` equal the dict entries and its `schema`
is the `SchemaRelationStub` built from the nested schema dict, whose
`database` is built from the nested database dict. -/
theorem C4_from_dict_builds_stub (n sn dn : String) (rr sr dr : RenderPolicy)
    (t : RelationType) (b : Bool) :
    RelationStub.from_dict
        ⟨some n, some ⟨some sn, some ⟨some dn, some dr⟩, some sr⟩,
         some rr, some t, some b⟩
      = Except.ok
          { name := n
            schema := { name := sn
                        database := { name := dn, render := dr }
                        render := sr
                        DatabaseParser := ParserTag.databaseRelationStub }
            render := rr
            type := t
            SchemaParser := ParserTag.schemaRelationStub
            can_be_renamed := b } ∧
    SchemaRelationStub.from_dict ⟨some sn, some ⟨some dn, some dr⟩, some sr⟩
      = Except.ok { name := sn
                    database := { name := dn, render := dr }
                    render := sr
                    DatabaseParser := ParserTag.databaseRelationStub } ∧
    DatabaseRelation.from_dict ⟨some dn, some dr⟩
      = Except.ok { name := dn, render := dr } :=
  ⟨rfl, rfl, rfl⟩

/-- C6: the three stub classes are frozen dataclasses, so every attempted
attribute assignment on a constructed instance is refused with
`FrozenInstanceError`, whatever update it tries to apply. -/
theorem C6_stub_instances_frozen :
    (∀ (update : DatabaseRelationStub → DatabaseRelationStub)
        (x : DatabaseRelationStub),
        dataclassSetattr DatabaseRelationStub.frozenFlag update x
          = Except.error FrozenInstanceError.mk) ∧
    (∀ (update : SchemaRelationStub → SchemaRelationStub)
        (x : SchemaRelationStub),
        dataclassSetattr SchemaRelationStub.frozenFlag update x
          = Except.error FrozenInstanceError.mk) ∧
    (∀ (update : RelationStub → RelationStub) (x : RelationStub),
        dataclassSetattr RelationStub.frozenFlag update x
          = Except.error FrozenInstanceError.mk) :=
  ⟨fun _ _ => rfl, fun _ _ => rfl, fun _ _ => rfl⟩

/-- C7: the boolean conversions denote "is configured": a `Time` is truthy iff
both `count` and `period` are non-`None`; a `FreshnessThreshold` is truthy iff
its `warn_after` or its `error_after` `Time` is truthy; an `ExternalTable` is
truthy iff its `location` is non-`None`. -/
theorem C7_truthiness_is_configured :
    (∀ t : Time, t.pyBool = true ↔ (t.count ≠ none ∧ t.period ≠ none)) ∧
    (∀ ft : FreshnessThreshold, ft.pyBool = true ↔
        ((∃ tw, ft.warn_after = some tw ∧ tw.pyBool = true) ∨
         (∃ te, ft.error_after = some te ∧ te.pyBool = true))) ∧
    (∀ et : ExternalTable, et.pyBool = true ↔ et.location ≠ none) := by
  refine ⟨?_, ?_, ?_⟩
  · rintro ⟨c, p⟩
    cases c <;> cases p <;> simp [Time.pyBool]
  · rintro ⟨w, e, fl⟩
    cases w <;> cases e <;> simp [FreshnessThreshold.pyBool, optTimePyBool]
  · rintro ⟨l, f1, f2, f3, f4⟩
    cases l <;> simp [ExternalTable.pyBool]

/-- An unconfigured (falsy) `Optional[Time]` never drives a threshold branch. -/
theorem optTimeExceeds_of_not_configured {o : Option Time}
    (h : optTimePyBool o = false) (age : ℚ) : optTimeExceeds o age = false := by
  cases o with
  | none => rfl
  | some t =>
    simp only [optTimePyBool] at h
    simp [optTimeExceeds, h]

/-- C10: a `Time` whose `count` or `period` is `None` is never exceeded, for
any actual age; consequently a `FreshnessThreshold` whose `warn_after` and
`error_after` are both unconfigured — as produced by default construction —
reports `Pass` for every age. -/
theorem C10_unconfigured_passes :
    (∀ (t : Time) (age : ℚ), (t.count = none ∨ t.period = none) →
        t.exceeded age = false) ∧
    (∀ (ft : FreshnessThreshold) (age : ℚ),
        optTimePyBool ft.warn_after = false →
        optTimePyBool ft.error_after = false →
        ft.status age = FreshnessStatus.pass) := by
  constructor
  · rintro ⟨c, p⟩ age (h | h)
    · cases h
      cases p <;> rfl
    · cases h
      cases c <;> rfl
  · intro ft age hw he
    simp [FreshnessThreshold.status,
      optTimeExceeds_of_not_configured hw age,
      optTimeExceeds_of_not_configured he age]

theorem C10_witness :
    Time.exceeded {} 99999 = false ∧
    FreshnessThreshold.status {} 99999 = FreshnessStatus.pass :=
  ⟨C10_unconfigured_passes.1 {} 99999 (Or.inl rfl),
   C10_unconfigured_passes.2 {} 99999 rfl rfl⟩

end Dbt
